import Mathlib

/-!
# Verification of the HBbot birthday-delivery core

Shallow embedding of the delivery-tracking ledger, the pending-birthday
resolver and the per-recipient dispatch step of `birthday_bot.py`, and of
the bounded image-generation poll loop of `kandinsky_client.py`.

Python dictionaries are modelled as insertion-ordered association lists
(first occurrence wins on lookup, in-place update preserves position,
missing keys are appended at the end), which matches CPython dict
semantics for the unique-key dictionaries the program builds.  File and
network I/O is modelled by passing the read values in as parameters and
returning the written values; the poll loop's successive HTTP responses
become an oracle function of the poll index.
-/

namespace HBbot

/-! ## Constants (from `constants.py`) -/

def DEFAULT_USER_NAME : String := "Дорогой друг"

def DEFAULT_UNKNOWN_NAME : String := "Неизвестный"

def RETRY_DAYS : Nat := 2

def DELIVERY_TRACKING_FILE : String := "delivery_tracking.json"

def KANDINSKY_GENERATE_TIMEOUT : Nat := 300

def KANDINSKY_MAX_RETRIES : Nat := 30

/-! ## Association lists: the model of Python `dict` -/

/-- Lookup in an insertion-ordered association list (`d[k]` / `k in d`). -/
def lookupEntry {α β : Type} [DecidableEq α] : List (α × β) → α → Option β
  | [], _ => none
  | (k, v) :: rest, k0 => if k = k0 then some v else lookupEntry rest k0

/-- Update/insert in an insertion-ordered association list (`d[k] = v`):
an existing key keeps its position, a new key is appended at the end. -/
def setEntry {α β : Type} [DecidableEq α] : List (α × β) → α → β → List (α × β)
  | [], k0, v0 => [(k0, v0)]
  | (k, v) :: rest, k0, v0 =>
      if k = k0 then (k0, v0) :: rest else (k, v) :: setEntry rest k0 v0

/-! ## Delivery-tracking data (`delivery_tracking.json`)

The JSON document is `{"year": int, "sent_messages": {birthday: {name: record}}}`.
The outer key is whatever `user.get("birthday")` produced, so it may be the
JSON null (`Option.none`); the inner key is the user name string. -/

structure DeliveryRecord where
  birthday : Option String
  sent : Bool
  sent_date : String
  is_belated : Bool
  attempts : Nat
deriving DecidableEq, Repr

abbrev SentMessages := List (Option String × List (String × DeliveryRecord))

structure TrackingData where
  year : Int
  sent_messages : SentMessages
deriving DecidableEq, Repr

/-- `BirthdayBot._create_empty_tracking_data`. -/
def create_empty_tracking_data (currentYear : Int) : TrackingData :=
  { year := currentYear, sent_messages := [] }

/-- The persisted tracking file as seen by `load_delivery_tracking`:
absent, unreadable/unparseable, or a parsed JSON document whose
(optional) `year` field and `sent_messages` mapping are given. -/
inductive StoredFile where
  | absent
  | unparseable
  | stored (year : Option Int) (sent_messages : SentMessages)
deriving DecidableEq, Repr

/-- `BirthdayBot.load_delivery_tracking`: a missing file, a parse failure,
or a stored year different from the current year all fall back to a fresh
empty structure; otherwise the stored data is returned as-is. -/
def load_delivery_tracking (f : StoredFile) (currentYear : Int) : TrackingData :=
  match f with
  | .absent => create_empty_tracking_data currentYear
  | .unparseable => create_empty_tracking_data currentYear
  | .stored y sm =>
      if y = some currentYear then { year := currentYear, sent_messages := sm }
      else create_empty_tracking_data currentYear

/-! ## Filesystem trace of `save_delivery_tracking`

`save_delivery_tracking` performs a single `Path.write_text` on the
tracking file (truncate-and-write in place); we record the sequence of
filesystem operations it issues to reason about crash atomicity. -/

inductive FsOp where
  | writeText (path : String)
  | rename (src dst : String)
deriving DecidableEq, Repr

/-- The filesystem operations performed by `BirthdayBot.save_delivery_tracking`:
one direct `write_text` to the tracking file, nothing else. -/
def save_delivery_tracking_fsOps : List FsOp :=
  [FsOp.writeText DELIVERY_TRACKING_FILE]

/-- A write-and-rename (atomic replace) trace for `target`: every plain
write goes to some other path, and the trace ends by renaming some other
path onto `target`. -/
def atomicReplace (ops : List FsOp) (target : String) : Bool :=
  (ops.all fun op =>
    match op with
    | .writeText p => p != target
    | .rename _ _ => true) &&
  (match ops.getLast? with
   | some (.rename src dst) => dst == target && src != target
   | _ => false)

/-! ## Ledger mutation and query -/

/-- `BirthdayBot.mark_message_sent` (the ledger mutation, with the load
and save steps made explicit as the input and output `TrackingData`):
ensures the birthday bucket exists, then overwrites the record for
`user_name` with `sent := true`, the given send date and belated flag,
and the previous attempt count (0 when absent) plus one. -/
def mark_message_sent (t : TrackingData) (user_name : String)
    (birthday : Option String) (is_belated : Bool) (sent_date : String) :
    TrackingData :=
  let inner := (lookupEntry t.sent_messages birthday).getD []
  let prevAttempts := ((lookupEntry inner user_name).map DeliveryRecord.attempts).getD 0
  let updated : DeliveryRecord :=
    { birthday := birthday, sent := true, sent_date := sent_date,
      is_belated := is_belated, attempts := prevAttempts + 1 }
  { year := t.year,
    sent_messages := setEntry t.sent_messages birthday (setEntry inner user_name updated) }

/-- `BirthdayBot.is_message_sent`: the birthday bucket exists, the user
entry exists in it, and its `sent` field is true. -/
def is_message_sent (t : TrackingData) (user_name : String)
    (birthday : Option String) : Bool :=
  match lookupEntry t.sent_messages birthday with
  | none => false
  | some inner =>
      match lookupEntry inner user_name with
      | none => false
      | some r => r.sent

/-- The record stored for a key, if any (`sent_messages[birthday][user_name]`). -/
def getRecord (t : TrackingData) (birthday : Option String) (user_name : String) :
    Option DeliveryRecord :=
  (lookupEntry t.sent_messages birthday).bind fun inner => lookupEntry inner user_name

/-- The attempt count stored for a key, defaulting to 0 when absent, as
read by `mark_message_sent` via `.get(user_name, {}).get("attempts", 0)`. -/
def attemptsFor (t : TrackingData) (birthday : Option String) (user_name : String) : Nat :=
  ((getRecord t birthday user_name).map DeliveryRecord.attempts).getD 0

/-! ## Dates and `strftime("%d.%m")` -/

structure Date where
  year : Nat
  month : Nat
  day : Nat
deriving DecidableEq, Repr

def isLeapYear (y : Nat) : Bool :=
  y % 4 = 0 && (y % 100 != 0 || y % 400 = 0)

def daysInMonth (y m : Nat) : Nat :=
  if m = 2 then (if isLeapYear y then 29 else 28)
  else if m = 4 || m = 6 || m = 9 || m = 11 then 30
  else 31

/-- One Gregorian day earlier (`date - timedelta(days=1)`). -/
def prevDay (d : Date) : Date :=
  if d.day > 1 then { d with day := d.day - 1 }
  else if d.month > 1 then
    { d with month := d.month - 1, day := daysInMonth d.year (d.month - 1) }
  else { year := d.year - 1, month := 12, day := 31 }

/-- `date - timedelta(days=n)`. -/
def subDays (d : Date) (n : Nat) : Date := prevDay^[n] d

/-- Two-digit zero padding, as `%d` / `%m` produce. -/
def pad2 (n : Nat) : String :=
  if n < 10 then "0" ++ toString n else toString n

/-- `strftime(DATE_FORMAT)` with `DATE_FORMAT = "%d.%m"`. -/
def formatDM (d : Date) : String := pad2 d.day ++ "." ++ pad2 d.month

/-! ## Users and the pending-birthday resolver -/

/-- A `chat_id` value as it may appear in the users config: an integer or
a string (the JSON null / missing key is `Option.none` around this type). -/
inductive ChatId where
  | intId (n : Int)
  | strId (s : String)
deriving DecidableEq, Repr

/-- Python truthiness of an optional chat id: `None`, `0` and `""` are falsy. -/
def chatTruthy : Option ChatId → Bool
  | none => false
  | some (.intId n) => n != 0
  | some (.strId s) => s != ""

/-- One entry of the `users` list in `users_config.json`. -/
structure User where
  name : Option String
  username : Option String
  birthday : Option String
  chat_id : Option ChatId
deriving DecidableEq, Repr

/-- `user.get("name", DEFAULT_UNKNOWN_NAME)` as used by `get_pending_birthdays`. -/
def userName (u : User) : String := u.name.getD DEFAULT_UNKNOWN_NAME

/-- `BirthdayBot._is_birthday_match`: a falsy (missing or empty) birthday
never matches; otherwise compare with the check date formatted `%d.%m`. -/
def is_birthday_match (birthday : Option String) (check_date : Date) : Bool :=
  match birthday with
  | none => false
  | some b => if b = "" then false else b == formatDM check_date

/-- A user together with the lateness info attached by the resolver. -/
structure PendingUser where
  user : User
  is_belated : Bool
  days_late : Nat
deriving DecidableEq, Repr

/-- `BirthdayBot._create_pending_user`. -/
def create_pending_user (u : User) (days_ago : Nat) : PendingUser :=
  { user := u, is_belated := days_ago > 0, days_late := days_ago }

/-- `BirthdayBot.get_pending_birthdays` with its reads made explicit:
`users` is the config user list, `t` the loaded tracking data, `today`
the current date and `retryDays` the `RETRY_DAYS` constant.  Iterates
`days_ago` over `0..retryDays` and, in user-list order, keeps every user
whose birthday matches `today - days_ago` and whose key is not yet marked
sent. -/
def get_pending_birthdays (users : List User) (t : TrackingData)
    (today : Date) (retryDays : Nat) : List PendingUser :=
  if users.isEmpty then []
  else
    (List.range (retryDays + 1)).flatMap fun days_ago =>
      users.filterMap fun u =>
        if is_birthday_match u.birthday (subDays today days_ago) then
          if is_message_sent t (userName u) u.birthday then none
          else some (create_pending_user u days_ago)
        else none

/-! ## Destination resolution and the per-recipient dispatch step -/

/-- `BirthdayBot._get_chat_id_for_user`: the user's own chat id when
truthy, else the config default when truthy, else the environment
default; a falsy final value yields `none` (the recipient is skipped). -/
def get_chat_id_for_user (userChat configChat envChat : Option ChatId) :
    Option ChatId :=
  let c := if chatTruthy userChat then userChat
           else if chatTruthy configChat then configChat else envChat
  if chatTruthy c then c else none

/-- Outcome of the Telegram dispatch call for one recipient: `success`
when some send in `_send_telegram_message` went through, `failure` when
even the plain-text fallback raised. -/
inductive Dispatch where
  | success
  | failure
deriving DecidableEq, Repr

/-- Result of processing one recipient: the tracking state afterwards and
whether a dispatch was attempted at all. -/
structure StepResult where
  tracking : TrackingData
  dispatched : Bool
deriving DecidableEq, Repr

/-- `BirthdayBot._send_birthday_message_to_user`, with I/O made explicit:
if no chat id resolves, the recipient is skipped (no dispatch, ledger
unchanged); otherwise the message is dispatched with outcome `d` — on
failure the raised exception is caught by the surrounding handler before
`mark_message_sent` is reached, so the ledger is unchanged; on success
the key is marked sent. -/
def send_birthday_message_to_user (t : TrackingData) (p : PendingUser)
    (configChat envChat : Option ChatId) (d : Dispatch) (sent_date : String) :
    StepResult :=
  match get_chat_id_for_user p.user.chat_id configChat envChat with
  | none => { tracking := t, dispatched := false }
  | some _ =>
      match d with
      | .failure => { tracking := t, dispatched := true }
      | .success =>
          { tracking :=
              mark_message_sent t (p.user.name.getD DEFAULT_USER_NAME)
                p.user.birthday p.is_belated sent_date,
            dispatched := true }

/-- `BirthdayBot.send_birthday_messages` over an already-resolved pending
list: each recipient is processed in order with its own dispatch outcome,
and a recipient's failure or skip never stops the iteration. -/
def send_birthday_messages (t : TrackingData)
    (items : List (PendingUser × Dispatch))
    (configChat envChat : Option ChatId) (sent_date : String) : TrackingData :=
  items.foldl
    (fun acc pd =>
      (send_birthday_message_to_user acc pd.1 configChat envChat pd.2 sent_date).tracking)
    t

/-! ## Kandinsky status checks and the bounded poll loop -/

/-- One HTTP response to the pipeline-status request, as
`_check_generation_status` distinguishes them: a 200 with a parsed body
(optional `status` field and `result.files` list), a non-200 status, or
an exception while reading/parsing. -/
inductive ApiResponse where
  | ok (status : Option String) (files : List String)
  | httpError
  | parseError
deriving DecidableEq, Repr

/-- `KandinskyClient._check_generation_status`: `DONE` yields the first
file (or `none` when the file list is empty), `FAIL` yields `none`,
`INITIAL`/`PROCESSING` yield the sentinel `"PROCESSING"`, and any other
status — as well as any HTTP or parse error — yields `none`. -/
def check_generation_status (resp : ApiResponse) : Option String :=
  match resp with
  | .ok st files =>
      if st = some "DONE" then
        match files with
        | [] => none
        | f :: _ => some f
      else if st = some "FAIL" then none
      else if st = some "INITIAL" || st = some "PROCESSING" then some "PROCESSING"
      else none
  | .httpError => none
  | .parseError => none

/-- Terminal outcome of the poll loop in
`KandinskyClient.generate_birthday_image`. -/
inductive PollOutcome where
  | timedOut
  | statusError
  | gotImage (payload : String)
  | exhausted
deriving DecidableEq, Repr

/-- The `while retries < KANDINSKY_MAX_RETRIES` loop of
`KandinskyClient.generate_birthday_image`, instrumented with the number
of status-check calls performed.  `polls i` is the result of the `i`-th
`_check_generation_status` call, `elapsed i` the wall-clock seconds
elapsed when iteration `i` starts, `remaining` the attempts left before
the retry budget is exhausted, and `i` the number of polls done so far.
Each iteration first checks the overall timeout, then polls: `none`
aborts with a status error, the `"PROCESSING"` sentinel consumes one
retry and continues, anything else is the image payload. -/
def pollLoop (polls : Nat → Option String) (elapsed : Nat → Nat)
    (timeout : Nat) : Nat → Nat → PollOutcome × Nat
  | 0, i => (.exhausted, i)
  | remaining + 1, i =>
      if elapsed i > timeout then (.timedOut, i)
      else
        match polls i with
        | none => (.statusError, i + 1)
        | some s =>
            if s = "PROCESSING" then pollLoop polls elapsed timeout remaining (i + 1)
            else (.gotImage s, i + 1)

/-- The poll phase of `generate_birthday_image` as shipped: retry budget
`KANDINSKY_MAX_RETRIES`, overall timeout `KANDINSKY_GENERATE_TIMEOUT`,
starting with zero polls done. -/
def generate_birthday_image_poll (polls : Nat → Option String)
    (elapsed : Nat → Nat) : PollOutcome × Nat :=
  pollLoop polls elapsed KANDINSKY_GENERATE_TIMEOUT KANDINSKY_MAX_RETRIES 0

/-! ## Concrete fixtures used by example-level statements -/

/-- Recipient `A` with birthday May 1 (`"01.05"` in `%d.%m`). -/
def userA : User :=
  { name := some "A", username := none, birthday := some "01.05", chat_id := none }

/-- A second recipient `B`, also with birthday May 1. -/
def userB : User :=
  { name := some "B", username := none, birthday := some "01.05", chat_id := none }

/-- Recipient with birthday March 8 (`"08.03"`). -/
def userMar8 : User :=
  { name := some "B", username := none, birthday := some "08.03", chat_id := none }

/-- Recipient with birthday March 7 (`"07.03"`). -/
def userMar7 : User :=
  { name := some "B", username := none, birthday := some "07.03", chat_id := none }

def dateMay1 : Date := { year := 2025, month := 5, day := 1 }

def dateMar10 : Date := { year := 2025, month := 3, day := 10 }

/-- A sample non-empty `sent_messages` mapping. -/
def sampleMessages : SentMessages :=
  [(some "01.05",
    [("A", { birthday := some "01.05", sent := true, sent_date := "2023-05-01",
             is_belated := false, attempts := 1 })])]

end HBbot

namespace HBbot

/-! ## Helper lemmas about association lists and the ledger -/

theorem lookupEntry_setEntry_self {α β : Type} [DecidableEq α]
    (l : List (α × β)) (k : α) (v : β) :
    lookupEntry (setEntry l k v) k = some v := by
  induction l with
  | nil => simp [setEntry, lookupEntry]
  | cons hd tl ih =>
    obtain ⟨k1, v1⟩ := hd
    by_cases h : k1 = k
    · simp [setEntry, lookupEntry, h]
    · simp [setEntry, lookupEntry, h, ih]

theorem lookupEntry_setEntry_other {α β : Type} [DecidableEq α]
    (l : List (α × β)) (k k0 : α) (v : β) (h : k0 ≠ k) :
    lookupEntry (setEntry l k v) k0 = lookupEntry l k0 := by
  have hks : k ≠ k0 := Ne.symm h
  induction l with
  | nil => simp [setEntry, lookupEntry, hks]
  | cons hd tl ih =>
    obtain ⟨k1, v1⟩ := hd
    by_cases h1 : k1 = k
    · subst h1
      simp [setEntry, lookupEntry, hks]
    · simp [setEntry, lookupEntry, h1, ih]

theorem getRecord_mark_self (t : TrackingData) (n : String) (b : Option String)
    (bel : Bool) (sd : String) :
    getRecord (mark_message_sent t n b bel sd) b n =
      some { birthday := b, sent := true, sent_date := sd, is_belated := bel,
             attempts := attemptsFor t b n + 1 } := by
  unfold getRecord mark_message_sent attemptsFor getRecord
  cases h : lookupEntry t.sent_messages b <;>
    simp [h, lookupEntry_setEntry_self, lookupEntry]

theorem is_message_sent_eq_getRecord (t : TrackingData) (n : String) (b : Option String) :
    is_message_sent t n b = ((getRecord t b n).map DeliveryRecord.sent).getD false := by
  unfold is_message_sent getRecord
  cases hl : lookupEntry t.sent_messages b with
  | none => simp
  | some inner => cases hn : lookupEntry inner n <;> simp [hn]

theorem is_message_sent_mark_self (t : TrackingData) (n : String) (b : Option String)
    (bel : Bool) (sd : String) :
    is_message_sent (mark_message_sent t n b bel sd) n b = true := by
  rw [is_message_sent_eq_getRecord, getRecord_mark_self]
  rfl

theorem getRecord_mark_other (t : TrackingData) (n : String) (b : Option String)
    (bel : Bool) (sd : String) (b0 : Option String) (n0 : String)
    (h : b0 ≠ b ∨ n0 ≠ n) :
    getRecord (mark_message_sent t n b bel sd) b0 n0 = getRecord t b0 n0 := by
  by_cases hb : b0 = b
  · subst hb
    have hn : n0 ≠ n := by
      rcases h with h | h
      · exact absurd rfl h
      · exact h
    unfold getRecord mark_message_sent
    cases hl : lookupEntry t.sent_messages b0 with
    | none =>
      simp [hl, lookupEntry_setEntry_self, lookupEntry_setEntry_other _ _ _ _ hn,
        lookupEntry, Ne.symm hn]
    | some inner =>
      simp [hl, lookupEntry_setEntry_self, lookupEntry_setEntry_other _ _ _ _ hn]
  · unfold getRecord mark_message_sent
    rw [lookupEntry_setEntry_other _ _ _ _ hb]

end HBbot

namespace HBbot

theorem pending_entry_eq_some (t : TrackingData) (check : Date) (u : User)
    (d : Nat) (p : PendingUser) :
    ((if is_birthday_match u.birthday check then
        if is_message_sent t (userName u) u.birthday then none
        else some (create_pending_user u d)
      else none) = some p) ↔
      (is_birthday_match u.birthday check = true ∧
       is_message_sent t (userName u) u.birthday = false ∧
       p = create_pending_user u d) := by
  cases h1 : is_birthday_match u.birthday check with
  | false => simp [h1]
  | true =>
    cases h2 : is_message_sent t (userName u) u.birthday with
    | false => simp [eq_comm]
    | true => simp

theorem mem_get_pending_birthdays_iff (users : List User) (t : TrackingData)
    (today : Date) (W : Nat) (p : PendingUser) :
    p ∈ get_pending_birthdays users t today W ↔
      ∃ days_ago, days_ago ≤ W ∧ ∃ u, u ∈ users ∧
        is_birthday_match u.birthday (subDays today days_ago) = true ∧
        is_message_sent t (userName u) u.birthday = false ∧
        p = create_pending_user u days_ago := by
  by_cases hu : users.isEmpty
  · have h0 : users = [] := List.isEmpty_iff.mp hu
    subst h0
    simp [get_pending_birthdays]
  · rw [get_pending_birthdays, if_neg hu]
    simp only [List.mem_flatMap, List.mem_range, List.mem_filterMap,
      Nat.lt_succ_iff, pending_entry_eq_some]

theorem pollLoop_count_le (polls : Nat → Option String) (elapsed : Nat → Nat)
    (timeout : Nat) (M i : Nat) :
    (pollLoop polls elapsed timeout M i).2 ≤ i + M := by
  induction M generalizing i with
  | zero => simp [pollLoop]
  | succ m ih =>
    simp only [pollLoop]
    by_cases ht : elapsed i > timeout
    · rw [if_pos ht]
      show i ≤ i + (m + 1)
      omega
    · rw [if_neg ht]
      cases hp : polls i with
      | none =>
        show i + 1 ≤ i + (m + 1)
        omega
      | some s =>
        show (if s = "PROCESSING" then pollLoop polls elapsed timeout m (i + 1)
              else (PollOutcome.gotImage s, i + 1)).2 ≤ i + (m + 1)
        by_cases hs : s = "PROCESSING"
        · rw [if_pos hs]
          have h := ih (i + 1)
          omega
        · rw [if_neg hs]
          show i + 1 ≤ i + (m + 1)
          omega

end HBbot

namespace HBbot

/-! ## Claim theorems -/

/-- C1: for every key (birthday, user name) and every tracking state,
`mark_message_sent` stores a record with `sent = true`, `sent_date` the
given day, `is_belated` the given flag, and `attempts` exactly one more
than before (0 when the record was absent); calling it twice yields
`sent = true` both times with `attempts` increased by exactly one on each
call, and `is_message_sent` is true after the first call and stays true. -/
theorem claim_C1_mark_message_sent_idempotent (t : TrackingData)
    (user_name : String) (birthday : Option String) (bel1 bel2 : Bool)
    (d1 d2 : String) :
    getRecord (mark_message_sent t user_name birthday bel1 d1) birthday user_name =
      some { birthday := birthday, sent := true, sent_date := d1, is_belated := bel1,
             attempts := attemptsFor t birthday user_name + 1 } ∧
    is_message_sent (mark_message_sent t user_name birthday bel1 d1) user_name birthday
      = true ∧
    getRecord
        (mark_message_sent (mark_message_sent t user_name birthday bel1 d1)
          user_name birthday bel2 d2) birthday user_name =
      some { birthday := birthday, sent := true, sent_date := d2, is_belated := bel2,
             attempts := attemptsFor t birthday user_name + 2 } ∧
    is_message_sent
        (mark_message_sent (mark_message_sent t user_name birthday bel1 d1)
          user_name birthday bel2 d2) user_name birthday = true := by
  have h1 := getRecord_mark_self t user_name birthday bel1 d1
  have hA : attemptsFor (mark_message_sent t user_name birthday bel1 d1)
      birthday user_name = attemptsFor t birthday user_name + 1 := by
    simp [attemptsFor, h1]
  have h2 := getRecord_mark_self (mark_message_sent t user_name birthday bel1 d1)
      user_name birthday bel2 d2
  rw [hA] at h2
  refine ⟨h1, is_message_sent_mark_self _ _ _ _ _, h2,
    is_message_sent_mark_self _ _ _ _ _⟩

/-- C9: `mark_message_sent` is frame-preserving: it leaves the stored
year unchanged and the record of every key other than the one being
marked unchanged. -/
theorem claim_C9_mark_message_sent_frame (t : TrackingData)
    (user_name : String) (birthday : Option String) (bel : Bool) (sd : String)
    (b0 : Option String) (n0 : String) (h : b0 ≠ birthday ∨ n0 ≠ user_name) :
    (mark_message_sent t user_name birthday bel sd).year = t.year ∧
    getRecord (mark_message_sent t user_name birthday bel sd) b0 n0 =
      getRecord t b0 n0 :=
  ⟨rfl, getRecord_mark_other t user_name birthday bel sd b0 n0 h⟩

/-- Witness for C9 at a concrete state: marking key `("01.05", "A")`
leaves the record of key `("01.05", "B")` and the year untouched. -/
theorem claim_C9_witness :
    ((some "01.05" : Option String) ≠ some "01.05" ∨ "B" ≠ "A") ∧
    ((mark_message_sent { year := 2025, sent_messages := sampleMessages }
        "A" (some "01.05") false "2025-05-01").year = 2025 ∧
     getRecord (mark_message_sent { year := 2025, sent_messages := sampleMessages }
        "A" (some "01.05") false "2025-05-01") (some "01.05") "B" =
      getRecord { year := 2025, sent_messages := sampleMessages } (some "01.05") "B") :=
  ⟨by decide,
   claim_C9_mark_message_sent_frame
     { year := 2025, sent_messages := sampleMessages }
     "A" (some "01.05") false "2025-05-01" (some "01.05") "B" (by decide)⟩

/-- C2: with one recipient `A` whose birthday is today (May 1) and an
empty ledger, the resolver returns exactly that recipient with
`is_belated = false` and `days_late = 0`; after `mark_message_sent` for
that key, a second resolution on the same day returns `[]`; and in
general every entry the resolver selects has `is_message_sent = false`
for its key, so a key marked sent is never selected again in the same
year's tracking state. -/
theorem claim_C2_no_double_send :
    get_pending_birthdays [userA] (create_empty_tracking_data 2025) dateMay1 RETRY_DAYS
      = [{ user := userA, is_belated := false, days_late := 0 }] ∧
    get_pending_birthdays [userA]
      (mark_message_sent (create_empty_tracking_data 2025) "A" (some "01.05")
        false "2025-05-01") dateMay1 RETRY_DAYS = [] ∧
    ∀ (users : List User) (t : TrackingData) (today : Date) (W : Nat)
      (n : String) (b : Option String) (bel : Bool) (sd : String) (p : PendingUser),
      p ∈ get_pending_birthdays users (mark_message_sent t n b bel sd) today W →
      ¬(userName p.user = n ∧ p.user.birthday = b) := by
  refine ⟨by decide, by decide, ?_⟩
  intro users t today W n b bel sd p hmem hkey
  obtain ⟨d, hd, u, hu, hmatch, hsent, hp⟩ :=
    (mem_get_pending_birthdays_iff users
      (mark_message_sent t n b bel sd) today W p).mp hmem
  have hpu : p.user = u := by rw [hp]; rfl
  rw [hpu] at hkey
  rw [hkey.1, hkey.2] at hsent
  rw [is_message_sent_mark_self] at hsent
  exact absurd hsent (by simp)

/-- Witness for C2's general clause: with the key `("01.05", "A")` marked
sent, the still-pending entry for `B` on May 1 does not carry `A`'s key. -/
theorem claim_C2_witness :
    ({ user := userB, is_belated := false, days_late := 0 } : PendingUser) ∈
      get_pending_birthdays [userA, userB]
        (mark_message_sent (create_empty_tracking_data 2025) "A" (some "01.05")
          false "2025-05-01") dateMay1 RETRY_DAYS ∧
    ¬(userName ({ user := userB, is_belated := false, days_late := 0 } :
        PendingUser).user = "A" ∧
      ({ user := userB, is_belated := false, days_late := 0 } :
        PendingUser).user.birthday = some "01.05") :=
  ⟨by decide,
   claim_C2_no_double_send.2.2 [userA, userB] (create_empty_tracking_data 2025)
     dateMay1 RETRY_DAYS "A" (some "01.05") false "2025-05-01"
     { user := userB, is_belated := false, days_late := 0 } (by decide)⟩

/-- C3: a pending entry exists iff some `days_ago` in `0..window` makes
the recipient's birthday equal `today - days_ago` with the key not yet
marked sent, and the entry carries `is_belated = (days_ago > 0)` and
`days_late = days_ago` (it equals `create_pending_user u days_ago`); in
particular, with window 2 and today March 10, an unsent birthday of
March 8 is pending with `is_belated = true, days_late = 2`, while one of
March 7 is not pending. -/
theorem claim_C3_window_correctness :
    (∀ (users : List User) (t : TrackingData) (today : Date) (W : Nat)
        (p : PendingUser),
      p ∈ get_pending_birthdays users t today W ↔
        ∃ days_ago, days_ago ≤ W ∧ ∃ u, u ∈ users ∧
          is_birthday_match u.birthday (subDays today days_ago) = true ∧
          is_message_sent t (userName u) u.birthday = false ∧
          p = create_pending_user u days_ago) ∧
    get_pending_birthdays [userMar8] (create_empty_tracking_data 2025) dateMar10 2
      = [{ user := userMar8, is_belated := true, days_late := 2 }] ∧
    get_pending_birthdays [userMar7] (create_empty_tracking_data 2025) dateMar10 2
      = [] :=
  ⟨mem_get_pending_birthdays_iff, by decide, by decide⟩

/-- Witness for C3: the characterization applied to the concrete
March 8 recipient, two days late on March 10. -/
theorem claim_C3_witness :
    ({ user := userMar8, is_belated := true, days_late := 2 } : PendingUser) ∈
      get_pending_birthdays [userMar8] (create_empty_tracking_data 2025) dateMar10 2 :=
  (claim_C3_window_correctness.1 [userMar8] (create_empty_tracking_data 2025)
      dateMar10 2 { user := userMar8, is_belated := true, days_late := 2 }).mpr
    ⟨2, by decide, userMar8, by decide, by decide, by decide, by decide⟩

end HBbot

namespace HBbot

/-- C4: `load_delivery_tracking` returns a fresh empty structure for the
current year when the file is absent, when its contents do not parse,
and when the stored year differs from the current year (the function is
total, so no case raises); in particular a ledger stored with year 2023
loaded in 2024 has an empty record set. -/
theorem claim_C4_load_fail_open (currentYear : Int) (sy : Option Int)
    (sm sm0 : SentMessages) (h : sy ≠ some currentYear) :
    load_delivery_tracking .absent currentYear
      = create_empty_tracking_data currentYear ∧
    load_delivery_tracking .unparseable currentYear
      = create_empty_tracking_data currentYear ∧
    load_delivery_tracking (.stored sy sm) currentYear
      = create_empty_tracking_data currentYear ∧
    (load_delivery_tracking (.stored (some 2023) sm0) 2024).sent_messages = [] := by
  refine ⟨rfl, rfl, ?_, ?_⟩
  · simp [load_delivery_tracking, h]
  · simp [load_delivery_tracking, create_empty_tracking_data]

/-- Witness for C4: year-2023 data with a non-empty record set, loaded
when the current year is 2024, yields the fresh empty structure. -/
theorem claim_C4_witness :
    ((some 2023 : Option Int) ≠ some (2024 : Int)) ∧
    load_delivery_tracking (.stored (some 2023) sampleMessages) 2024
      = create_empty_tracking_data 2024 :=
  ⟨by decide,
   (claim_C4_load_fail_open 2024 (some 2023) sampleMessages sampleMessages
      (by decide)).2.2.1⟩

/-- C5: a recipient whose dispatch fails is not marked sent — the
tracking state is unchanged by that iteration, so the same pending set
is resolved on the next tick — and the only way the tracking state
changes is a successful dispatch, in which case it changes exactly by
`mark_message_sent` for that recipient's key. -/
theorem claim_C5_no_mark_on_dispatch_failure (t : TrackingData)
    (p : PendingUser) (configChat envChat : Option ChatId) (sd : String)
    (users : List User) (today : Date) (W : Nat) :
    (send_birthday_message_to_user t p configChat envChat .failure sd).tracking = t ∧
    get_pending_birthdays users
        (send_birthday_message_to_user t p configChat envChat .failure sd).tracking
        today W
      = get_pending_birthdays users t today W ∧
    ∀ d : Dispatch,
      (send_birthday_message_to_user t p configChat envChat d sd).tracking = t ∨
      (d = Dispatch.success ∧
        (send_birthday_message_to_user t p configChat envChat d sd).tracking =
          mark_message_sent t (p.user.name.getD DEFAULT_USER_NAME)
            p.user.birthday p.is_belated sd) := by
  have hfail :
      (send_birthday_message_to_user t p configChat envChat .failure sd).tracking = t := by
    unfold send_birthday_message_to_user
    cases get_chat_id_for_user p.user.chat_id configChat envChat <;> rfl
  refine ⟨hfail, by rw [hfail], ?_⟩
  intro d
  cases d with
  | failure => exact Or.inl hfail
  | success =>
    unfold send_birthday_message_to_user
    cases get_chat_id_for_user p.user.chat_id configChat envChat with
    | none => exact Or.inl rfl
    | some c => exact Or.inr ⟨rfl, rfl⟩

/-- C6 counterexample: the filesystem trace of `save_delivery_tracking`
is not a write-and-rename onto the tracking file — it is a single direct
write to that file. -/
theorem claim_C6_counterexample :
    atomicReplace save_delivery_tracking_fsOps DELIVERY_TRACKING_FILE = false := by
  decide

/-- C6 (amended): `save_delivery_tracking` performs exactly one direct
truncating write to the tracking file, with no temporary file and no
rename, so the save is not crash-atomic; a partially written
(unparseable) file does not make the next load raise — it falls back to
a fresh empty structure. -/
theorem claim_C6_save_single_direct_write :
    save_delivery_tracking_fsOps = [FsOp.writeText DELIVERY_TRACKING_FILE] ∧
    ∀ y : Int, load_delivery_tracking .unparseable y = create_empty_tracking_data y :=
  ⟨rfl, fun _ => rfl⟩

/-- C7: with a status check that always reports in-progress and an
overall timeout that never fires, the poll loop of
`generate_birthday_image` performs exactly its retry budget of polls and
exits exhausted — with budget `M` and `i` polls already done it ends at
`(exhausted, i + M)`; in particular a budget of 3 yields exhaustion
after exactly 3 polls. -/
theorem claim_C7_retry_bound (M i timeout : Nat) (polls : Nat → Option String)
    (elapsed : Nat → Nat) (hp : ∀ j, polls j = some "PROCESSING")
    (he : ∀ j, elapsed j ≤ timeout) :
    pollLoop polls elapsed timeout M i = (PollOutcome.exhausted, i + M) ∧
    pollLoop (fun _ => some "PROCESSING") (fun _ => 0) 300 3 0
      = (PollOutcome.exhausted, 3) := by
  refine ⟨?_, by decide⟩
  induction M generalizing i with
  | zero => simp [pollLoop]
  | succ m ih =>
    simp only [pollLoop]
    rw [if_neg (by exact Nat.not_lt.mpr (he i)), hp i]
    show (if "PROCESSING" = "PROCESSING" then pollLoop polls elapsed timeout m (i + 1)
          else (PollOutcome.gotImage "PROCESSING", i + 1)) = (PollOutcome.exhausted, i + (m + 1))
    rw [if_pos rfl, ih (i + 1)]
    congr 1
    omega

/-- Witness for C7: the retry bound applied with budget 3, a poll that
always answers in-progress, and zero elapsed time. -/
theorem claim_C7_witness :
    pollLoop (fun _ => some "PROCESSING") (fun _ => 0) 300 3 0
      = (PollOutcome.exhausted, 0 + 3) :=
  (claim_C7_retry_bound 3 0 300 (fun _ => some "PROCESSING") (fun _ => 0)
      (fun _ => rfl) (fun _ => Nat.zero_le 300)).1

/-- C8 counterexample: a status check answering an unrecognized status
(`"QUEUED"`) makes `_check_generation_status` return `none`, and the
poll loop then terminates with a status error after exactly one poll —
it does not treat the status as in-progress and keep polling, which
would have exhausted the 30-attempt budget instead. -/
theorem claim_C8_counterexample :
    check_generation_status (.ok (some "QUEUED") []) = none ∧
    pollLoop (fun _ => check_generation_status (.ok (some "QUEUED") []))
        (fun _ => 0) 300 30 0 = (PollOutcome.statusError, 1) ∧
    pollLoop (fun _ => some "PROCESSING") (fun _ => 0) 300 30 0
      = (PollOutcome.exhausted, 30) ∧
    (PollOutcome.statusError, (1 : Nat)) ≠ (PollOutcome.exhausted, (30 : Nat)) :=
  ⟨rfl, by decide, by decide, by decide⟩

/-- C8 (amended): any status other than `DONE`, `FAIL`, `INITIAL` or
`PROCESSING` — and any HTTP or parse failure — makes
`_check_generation_status` return `none`, and a `none` check result
makes the poll loop terminate immediately with a status error on that
iteration; the loop's poll count is always bounded by the retry budget. -/
theorem claim_C8_unknown_status_aborts (st : Option String)
    (files : List String) (h1 : st ≠ some "DONE") (h2 : st ≠ some "FAIL")
    (h3 : st ≠ some "INITIAL") (h4 : st ≠ some "PROCESSING")
    (polls : Nat → Option String) (elapsed : Nat → Nat) (timeout M i : Nat)
    (hel : elapsed i ≤ timeout) (hpoll : polls i = none) :
    check_generation_status (.ok st files) = none ∧
    check_generation_status .httpError = none ∧
    check_generation_status .parseError = none ∧
    pollLoop polls elapsed timeout (M + 1) i = (PollOutcome.statusError, i + 1) ∧
    ∀ (polls2 : Nat → Option String) (elapsed2 : Nat → Nat) (timeout2 M2 i2 : Nat),
      (pollLoop polls2 elapsed2 timeout2 M2 i2).2 ≤ i2 + M2 := by
  refine ⟨?_, rfl, rfl, ?_, pollLoop_count_le⟩
  · simp [check_generation_status, h1, h2, h3, h4]
  · simp only [pollLoop]
    rw [if_neg (Nat.not_lt.mpr hel), hpoll]

end HBbot

namespace HBbot

/-- Witness for C8's amended statement: an unknown `"QUEUED"` status and
a first poll answering `none` within a budget of 30 attempts terminate
the loop with a status error after one poll. -/
theorem claim_C8_witness :
    pollLoop (fun _ => (none : Option String)) (fun _ => 0) 300 30 0
      = (PollOutcome.statusError, 1) :=
  (claim_C8_unknown_status_aborts (some "QUEUED") [] (by decide) (by decide)
      (by decide) (by decide) (fun _ => none) (fun _ => 0) 300 29 0
      (Nat.zero_le 300) rfl).2.2.2.1

/-- C10: destination resolution treats a falsy chat id (absent/null,
the integer 0, or the empty string) as missing: a user's `chat_id` of 0
or `""` resolves exactly as an absent one; when the user, config and
environment chat ids are all falsy, resolution yields `none`, the
recipient's processing step dispatches nothing and leaves the tracking
state unchanged, and the remaining recipients of the batch are still
processed from that same state. -/
theorem claim_C10_falsy_chat_skips (configChat envChat : Option ChatId)
    (t : TrackingData) (p : PendingUser) (d : Dispatch) (sd : String)
    (rest : List (PendingUser × Dispatch))
    (hu : chatTruthy p.user.chat_id = false)
    (hc : chatTruthy configChat = false) (he : chatTruthy envChat = false) :
    get_chat_id_for_user (some (ChatId.intId 0)) configChat envChat
      = get_chat_id_for_user none configChat envChat ∧
    get_chat_id_for_user (some (ChatId.strId "")) configChat envChat
      = get_chat_id_for_user none configChat envChat ∧
    get_chat_id_for_user p.user.chat_id configChat envChat = none ∧
    send_birthday_message_to_user t p configChat envChat d sd
      = { tracking := t, dispatched := false } ∧
    send_birthday_messages t ((p, d) :: rest) configChat envChat sd
      = send_birthday_messages t rest configChat envChat sd := by
  have hnone : get_chat_id_for_user p.user.chat_id configChat envChat = none := by
    simp [get_chat_id_for_user, hu, hc, he]
  have hstep : send_birthday_message_to_user t p configChat envChat d sd
      = { tracking := t, dispatched := false } := by
    unfold send_birthday_message_to_user
    rw [hnone]
  refine ⟨rfl, rfl, hnone, hstep, ?_⟩
  simp [send_birthday_messages, hstep]

/-- Witness for C10: a recipient whose `chat_id` is the integer 0, with
no config and no environment default, is skipped and the one remaining
batch entry is still processed. -/
theorem claim_C10_witness :
    (chatTruthy (some (ChatId.intId 0)) = false ∧
     chatTruthy (none : Option ChatId) = false) ∧
    get_chat_id_for_user (some (ChatId.intId 0)) none none = none ∧
    send_birthday_message_to_user (create_empty_tracking_data 2025)
        { user := { name := some "A", username := none, birthday := some "01.05",
                    chat_id := some (ChatId.intId 0) },
          is_belated := false, days_late := 0 }
        none none Dispatch.success "2025-05-01"
      = { tracking := create_empty_tracking_data 2025, dispatched := false } ∧
    send_birthday_messages (create_empty_tracking_data 2025)
        [({ user := { name := some "A", username := none, birthday := some "01.05",
                      chat_id := some (ChatId.intId 0) },
            is_belated := false, days_late := 0 }, Dispatch.success),
         ({ user := userB, is_belated := false, days_late := 0 }, Dispatch.success)]
        none none "2025-05-01"
      = send_birthday_messages (create_empty_tracking_data 2025)
          [({ user := userB, is_belated := false, days_late := 0 }, Dispatch.success)]
          none none "2025-05-01" := by
  have h := claim_C10_falsy_chat_skips none none (create_empty_tracking_data 2025)
      { user := { name := some "A", username := none, birthday := some "01.05",
                  chat_id := some (ChatId.intId 0) },
        is_belated := false, days_late := 0 }
      Dispatch.success "2025-05-01"
      [({ user := userB, is_belated := false, days_late := 0 }, Dispatch.success)]
      (by decide) rfl rfl
  exact ⟨⟨by decide, rfl⟩, h.2.2.1, h.2.2.2.1, h.2.2.2.2⟩

end HBbot
